import Mathlib

/-!
Shallow embedding of the tag-scoped memory-region control adapter
(`python/sglang/srt/torch_memory_saver_adapter.py`) and of the launcher
entry point (`python/sglang/launch_server.py`).

Python errors are modelled by the inductive `PyErr`; a fallible Python
expression becomes a Lean value of type `Except PyErr _`.  The opaque
backend capability (`torch_memory_saver`) is modelled as a structure of
state-transforming operations over an abstract backend state `σ`; the
module-level import attempt is an `ImportOutcome` value.  Logger warnings
are collected in an explicit `List String`.
-/

/-- Python exception values, compared by identity of the modelled payload. -/
inductive PyErr where
  | importErr (msg : String)
  | nameErr (name : String)
  | attrErr (name : String)
  | backendErr (code : Nat)
  | userErr (code : Nat)
deriving DecidableEq, Repr

/-- Python values returned by the modelled calls. -/
inductive PyVal where
  | none
  | int (n : Int)
  | str (s : String)
deriving DecidableEq, Repr

/-- A Python context manager over backend state `σ`: `enter` may fail,
`exit` receives the in-scope exception (if any) and reports whether it
suppresses it. -/
structure CtxMgr (σ : Type) where
  enter : σ → Except PyErr PyVal × σ
  exit : Option PyErr → σ → σ × Bool

/-- The backend singleton object `torch_memory_saver.torch_memory_saver`:
tag-scoped region/pause/resume operations and an `enabled` flag, all over
an abstract backend state. -/
structure MemSaverObj (σ : Type) where
  enabled : σ → Bool
  pause : String → σ → Except PyErr PyVal × σ
  resume : String → σ → Except PyErr PyVal × σ
  region : String → σ → Except PyErr (CtxMgr σ) × σ

/-- The `torch_memory_saver` module: its `torch_memory_saver` attribute
(the singleton, possibly Python `None`) and its module-level
`configure_subprocess` function. -/
structure TorchMemorySaverModule (σ : Type) where
  torch_memory_saver_attr : Option (MemSaverObj σ)
  configure_subprocess : σ → Except PyErr (CtxMgr σ) × σ

/-- Result of the module-level `try: import torch_memory_saver` block:
on success `_memory_saver` is bound and `import_error = None`; on failure
the exception is captured in `import_error` and `_memory_saver` stays
unbound. -/
inductive ImportOutcome (σ : Type) where
  | success (m : TorchMemorySaverModule σ)
  | failure (e : PyErr)

/-- The module global `import_error`. -/
def importError {σ : Type} : ImportOutcome σ → Option PyErr
  | ImportOutcome.success _ => Option.none
  | ImportOutcome.failure e => Option.some e

/-- The adapter variant held by the process: `real` is
`_TorchMemorySaverAdapterReal`, `noop` is `_TorchMemorySaverAdapterNoop`.
Neither subclass carries instance state in the source. -/
inductive TorchMemorySaverAdapter where
  | real
  | noop
deriving DecidableEq, Repr

/-- The warning logged by `TorchMemorySaverAdapter.create` on the
requested-but-unavailable path, written as the source writes it
(three adjacent string literals). -/
def createWarning : String :=
  "enable_memory_saver is enabled, but " ++
    "torch-memory-saver is not installed. Please install it " ++
    "via `pip3 install torch-memory-saver`. "

/-- `TorchMemorySaverAdapter.create(enable)`: if `enable` is set while
the captured `import_error` is not `None`, log the warning and re-raise
that captured error; otherwise return the real adapter when `enable` else
the no-op adapter. -/
def TorchMemorySaverAdapter.create {σ : Type} (io : ImportOutcome σ)
    (enable : Bool) : Except PyErr TorchMemorySaverAdapter × List String :=
  match importError io, enable with
  | Option.some e, true => (Except.error e, [createWarning])
  | _, _ =>
    (Except.ok
      (if enable then TorchMemorySaverAdapter.real
        else TorchMemorySaverAdapter.noop), [])

/-- The `enabled` property.  The real adapter evaluates
`_memory_saver is not None and _memory_saver.enabled`; accessing the
unbound `_memory_saver` after a failed import would raise `NameError`.
The no-op adapter returns `False`. -/
def TorchMemorySaverAdapter.enabled {σ : Type} (io : ImportOutcome σ) :
    TorchMemorySaverAdapter → σ → Except PyErr Bool
  | TorchMemorySaverAdapter.real, s =>
    match io with
    | ImportOutcome.failure _ => Except.error (PyErr.nameErr "_memory_saver")
    | ImportOutcome.success m =>
      match m.torch_memory_saver_attr with
      | Option.none => Except.ok false
      | Option.some ms => Except.ok (ms.enabled s)
  | TorchMemorySaverAdapter.noop, _ => Except.ok false

/-- The warning logged by `check_validity` when the adapter is not
enabled, as an explicit function of `caller_name` (the source f-string). -/
def validityWarning (caller_name : String) : String :=
  "`" ++ caller_name ++
    "` will not save memory because torch_memory_saver is not enabled. " ++
    "Potential causes: `enable_memory_saver` is false, or torch_memory_saver has installation issues."

/-- `check_validity(caller_name)`: warn when `self.enabled` is false, no
effect otherwise. -/
def TorchMemorySaverAdapter.checkValidity {σ : Type} (io : ImportOutcome σ)
    (a : TorchMemorySaverAdapter) (s : σ) (caller_name : String) :
    Except PyErr Unit × List String :=
  match TorchMemorySaverAdapter.enabled io a s with
  | Except.error e => (Except.error e, [])
  | Except.ok b =>
    if b then (Except.ok (), []) else (Except.ok (), [validityWarning caller_name])

/-- The no-op context manager produced by the `@contextmanager` methods of
`_TorchMemorySaverAdapterNoop` (a bare `yield`): enter and exit do
nothing, exceptions are not suppressed. -/
def noopCtx (σ : Type) : CtxMgr σ where
  enter s := (Except.ok PyVal.none, s)
  exit _ s := (s, false)

/-- `pause(tag)`: the real adapter returns `_memory_saver.pause(tag=tag)`
(a `NameError` if `_memory_saver` is unbound, an `AttributeError` if it is
`None`); the no-op adapter is `pass`. -/
def TorchMemorySaverAdapter.pause {σ : Type} (io : ImportOutcome σ) :
    TorchMemorySaverAdapter → String → σ → Except PyErr PyVal × σ
  | TorchMemorySaverAdapter.real, tag, s =>
    match io with
    | ImportOutcome.failure _ => (Except.error (PyErr.nameErr "_memory_saver"), s)
    | ImportOutcome.success m =>
      match m.torch_memory_saver_attr with
      | Option.none => (Except.error (PyErr.attrErr "pause"), s)
      | Option.some ms => ms.pause tag s
  | TorchMemorySaverAdapter.noop, _, s => (Except.ok PyVal.none, s)

/-- `resume(tag)`: mirror image of `pause`. -/
def TorchMemorySaverAdapter.resume {σ : Type} (io : ImportOutcome σ) :
    TorchMemorySaverAdapter → String → σ → Except PyErr PyVal × σ
  | TorchMemorySaverAdapter.real, tag, s =>
    match io with
    | ImportOutcome.failure _ => (Except.error (PyErr.nameErr "_memory_saver"), s)
    | ImportOutcome.success m =>
      match m.torch_memory_saver_attr with
      | Option.none => (Except.error (PyErr.attrErr "resume"), s)
      | Option.some ms => ms.resume tag s
  | TorchMemorySaverAdapter.noop, _, s => (Except.ok PyVal.none, s)

/-- `region(tag)`: the real adapter returns the backend context manager
`_memory_saver.region(tag=tag)`; the no-op adapter returns its own no-op
context manager. -/
def TorchMemorySaverAdapter.region {σ : Type} (io : ImportOutcome σ) :
    TorchMemorySaverAdapter → String → σ → Except PyErr (CtxMgr σ) × σ
  | TorchMemorySaverAdapter.real, tag, s =>
    match io with
    | ImportOutcome.failure _ => (Except.error (PyErr.nameErr "_memory_saver"), s)
    | ImportOutcome.success m =>
      match m.torch_memory_saver_attr with
      | Option.none => (Except.error (PyErr.attrErr "region"), s)
      | Option.some ms => ms.region tag s
  | TorchMemorySaverAdapter.noop, _, s => (Except.ok (noopCtx σ), s)

/-- `configure_subprocess()`: the real adapter calls the module-level
`torch_memory_saver.configure_subprocess()`; the no-op adapter returns its
no-op context manager. -/
def TorchMemorySaverAdapter.configureSubprocess {σ : Type} (io : ImportOutcome σ) :
    TorchMemorySaverAdapter → σ → Except PyErr (CtxMgr σ) × σ
  | TorchMemorySaverAdapter.real, s =>
    match io with
    | ImportOutcome.failure _ =>
      (Except.error (PyErr.nameErr "torch_memory_saver"), s)
    | ImportOutcome.success m => m.configure_subprocess s
  | TorchMemorySaverAdapter.noop, s => (Except.ok (noopCtx σ), s)

/-- Substring containment on strings, used to state what a logged warning
mentions. -/
def strContains (needle hay : String) : Bool :=
  decide (needle.data <:+: hay.data)

/-- `runWithCount cm body s` executes the Python statement
`with cm: body` starting from backend state `s`, additionally reporting
how many times `cm.exit` was invoked.  Python semantics: `enter` first
(its error propagates with no `exit` call); then `body`; `exit` runs on
both the normal and the exceptional path, receives the in-scope
exception, and may suppress it. -/
def runWithCount {σ : Type} (cm : CtxMgr σ) (body : σ → Except PyErr PyVal × σ)
    (s : σ) : Except PyErr PyVal × σ × Nat :=
  match cm.enter s with
  | (Except.error e, s1) => (Except.error e, s1, 0)
  | (Except.ok _, s1) =>
    match body s1 with
    | (Except.ok v, s2) =>
      match cm.exit Option.none s2 with
      | (s3, _) => (Except.ok v, s3, 1)
    | (Except.error e, s2) =>
      match cm.exit (Option.some e) s2 with
      | (s3, true) => (Except.ok PyVal.none, s3, 1)
      | (s3, false) => (Except.error e, s3, 1)

/-- `launch_server.py` main block: `prepare_server_args(sys.argv[1:])`,
then `try: launch_server(server_args) finally:
kill_process_tree(os.getpid(), include_parent=False)`.  The collaborators
`prepare_server_args`, `launch_server` and `kill_process_tree` are
external to the repository and taken as parameters; the result records
the propagated outcome, the final world state, and the list of
`kill_process_tree` invocations as `(pid, include_parent)` pairs. -/
def launchServerMain {σ α : Type} (prepare_server_args : List String → Except PyErr α)
    (launch_server : α → σ → Except PyErr PyVal × σ)
    (kill_process_tree : Nat → Bool → σ → σ)
    (pid : Nat) (argv : List String) (s : σ) :
    Except PyErr PyVal × σ × List (Nat × Bool) :=
  match prepare_server_args argv with
  | Except.error e => (Except.error e, s, [])
  | Except.ok server_args =>
    match launch_server server_args s with
    | (r, s1) => (r, kill_process_tree pid false s1, [(pid, false)])

/-- One interface call a caller can make on the adapter it holds. -/
inductive AdapterOp where
  | pauseCall (tag : String)
  | resumeCall (tag : String)
  | regionCall (tag : String)
  | configureCall
  | checkCall (caller_name : String)
  | enabledRead
deriving DecidableEq, Repr

/-- A process's view after construction: the single adapter it holds, the
backend state, and the warnings logged so far. -/
structure ProcState (σ : Type) where
  adapter : TorchMemorySaverAdapter
  backendState : σ
  log : List String

/-- Executes one interface call against the process state (results are
dropped; only the state evolution matters here). -/
def stepOp {σ : Type} (io : ImportOutcome σ) (p : ProcState σ) :
    AdapterOp → ProcState σ
  | AdapterOp.pauseCall tag =>
    { p with backendState :=
        (TorchMemorySaverAdapter.pause io p.adapter tag p.backendState).2 }
  | AdapterOp.resumeCall tag =>
    { p with backendState :=
        (TorchMemorySaverAdapter.resume io p.adapter tag p.backendState).2 }
  | AdapterOp.regionCall tag =>
    { p with backendState :=
        (TorchMemorySaverAdapter.region io p.adapter tag p.backendState).2 }
  | AdapterOp.configureCall =>
    { p with backendState :=
        (TorchMemorySaverAdapter.configureSubprocess io p.adapter p.backendState).2 }
  | AdapterOp.checkCall caller_name =>
    { p with log := p.log ++
        (TorchMemorySaverAdapter.checkValidity io p.adapter p.backendState caller_name).2 }
  | AdapterOp.enabledRead => p

/-- Modelled from the spec: callers invoke the factory `create` exactly
once per process, at configuration time, and then run an arbitrary
sequence of interface calls against the adapter it returned; no caller
code that would construct or swap an adapter later exists.  (The callers
of `create` are outside the repository sources.) -/
def processRun {σ : Type} (io : ImportOutcome σ) (enable : Bool)
    (ops : List AdapterOp) (s : σ) : Except PyErr (ProcState σ) :=
  match TorchMemorySaverAdapter.create io enable with
  | (Except.error e, _) => Except.error e
  | (Except.ok a, lg) =>
    Except.ok (ops.foldl (stepOp io) ⟨a, s, lg⟩)

/-- A concrete backend singleton over `Nat` state, used to instantiate the
general theorems: `enabled` reads the parity of the state, `pause` and
`resume` bump the state, `region` hands out the trivial context manager. -/
def msDemo : MemSaverObj Nat where
  enabled s := s % 2 == 0
  pause _ s := (Except.ok PyVal.none, s + 1)
  resume _ s := (Except.ok PyVal.none, s + 2)
  region _ s := (Except.ok (noopCtx Nat), s)

/-- A concrete `torch_memory_saver` module wrapping `msDemo`. -/
def tmsDemo : TorchMemorySaverModule Nat where
  torch_memory_saver_attr := Option.some msDemo
  configure_subprocess s := (Except.ok (noopCtx Nat), s)

/-- A successful import of the demo module. -/
def ioDemo : ImportOutcome Nat := ImportOutcome.success tmsDemo

/-- A failed import with a captured error object. -/
def ioFailDemo : ImportOutcome Nat :=
  ImportOutcome.failure (PyErr.importErr "No module named torch_memory_saver")

/-- A concrete backend singleton whose every operation raises a distinct
backend-internal error, used to observe error pass-through. -/
def msErrDemo : MemSaverObj Nat where
  enabled _ := true
  pause _ s := (Except.error (PyErr.backendErr 7), s)
  resume _ s := (Except.error (PyErr.backendErr 8), s)
  region _ s := (Except.error (PyErr.backendErr 9), s)

/-- A concrete module wrapping `msErrDemo`, whose `configure_subprocess`
also raises. -/
def tmsErrDemo : TorchMemorySaverModule Nat where
  torch_memory_saver_attr := Option.some msErrDemo
  configure_subprocess s := (Except.error (PyErr.backendErr 10), s)

/-- Demo argument parser for the launcher theorems. -/
def prepareDemo : List String → Except PyErr String :=
  fun argv => Except.ok (String.intercalate " " argv)

/-- Demo server loop that fails, mutating the world state first. -/
def launchDemo : String → Nat → Except PyErr PyVal × Nat :=
  fun _ s => (Except.error (PyErr.userErr 1), s + 5)

/-- Demo process-tree teardown, observable in the world state. -/
def killDemo : Nat → Bool → Nat → Nat :=
  fun _ _ s => s * 10

/-- Substring containment of the middle component of a concatenation. -/
theorem strContains_mid (n a b : String) : strContains n (a ++ n ++ b) = true := by
  simp only [strContains, decide_eq_true_eq, String.data_append]
  exact ⟨a.data, b.data, by simp⟩

/-- The `check_validity` warning mentions the caller's name and both
plausible root causes. -/
theorem validityWarning_mentions (caller_name : String) :
    strContains caller_name (validityWarning caller_name) = true ∧
    strContains "`enable_memory_saver` is false" (validityWarning caller_name) = true ∧
    strContains "installation issues" (validityWarning caller_name) = true := by
  refine ⟨?_, ?_, ?_⟩
  · have h : validityWarning caller_name = "`" ++ caller_name ++
        ("` will not save memory because torch_memory_saver is not enabled. " ++
          "Potential causes: `enable_memory_saver` is false, or torch_memory_saver has installation issues.") := by
      simp [validityWarning, String.append_assoc]
    rw [h]
    exact strContains_mid caller_name "`" _
  · have h : validityWarning caller_name =
        ("`" ++ caller_name ++
            "` will not save memory because torch_memory_saver is not enabled. Potential causes: ") ++
          "`enable_memory_saver` is false" ++
          ", or torch_memory_saver has installation issues." := by
      simp [validityWarning, String.append_assoc]
    rw [h]
    exact strContains_mid _ _ _
  · have h : validityWarning caller_name =
        ("`" ++ caller_name ++
            "` will not save memory because torch_memory_saver is not enabled. Potential causes: `enable_memory_saver` is false, or torch_memory_saver has ") ++
          "installation issues" ++ "." := by
      simp [validityWarning, String.append_assoc]
    rw [h]
    exact strContains_mid _ _ _

set_option maxRecDepth 4000 in
/-- C1: if `enable` is true while the import of the backend failed at
process start (`import_error` is not `None`), `create` raises exactly the
originally captured error object after logging exactly one warning, which
names the missing capability (`torch-memory-saver`) and the remediation
step (`pip3 install torch-memory-saver`); nothing else happens on that
path. -/
theorem create_raises_captured_import_error {σ : Type} (io : ImportOutcome σ)
    (e : PyErr) (h : importError io = Option.some e) :
    TorchMemorySaverAdapter.create io true = (Except.error e, [createWarning]) ∧
    strContains "torch-memory-saver" createWarning = true ∧
    strContains "pip3 install torch-memory-saver" createWarning = true := by
  cases io with
  | success m => simp [importError] at h
  | failure e0 =>
    simp only [importError, Option.some.injEq] at h
    subst h
    exact ⟨rfl, by decide, by decide⟩

/-- C1 witness: a concrete failed import replayed by `create(true)`. -/
theorem create_raises_captured_import_error_witness :
    importError ioFailDemo =
      Option.some (PyErr.importErr "No module named torch_memory_saver") ∧
    (TorchMemorySaverAdapter.create ioFailDemo true =
        (Except.error (PyErr.importErr "No module named torch_memory_saver"),
          [createWarning]) ∧
      strContains "torch-memory-saver" createWarning = true ∧
      strContains "pip3 install torch-memory-saver" createWarning = true) :=
  ⟨rfl, create_raises_captured_import_error ioFailDemo _ rfl⟩

/-- C2: with the backend present, `create(true)` yields the real adapter
and its `enabled` property is exactly the backend's `enabled` flag at the
state being read (so it can be false for an Active adapter and is never
hardcoded true). -/
theorem active_enabled_reflects_backend {σ : Type} (m : TorchMemorySaverModule σ)
    (ms : MemSaverObj σ) (hms : m.torch_memory_saver_attr = Option.some ms)
    (s : σ) :
    TorchMemorySaverAdapter.create (ImportOutcome.success m) true =
      (Except.ok TorchMemorySaverAdapter.real, []) ∧
    TorchMemorySaverAdapter.enabled (ImportOutcome.success m)
      TorchMemorySaverAdapter.real s = Except.ok (ms.enabled s) := by
  exact ⟨rfl, by simp [TorchMemorySaverAdapter.enabled, hms]⟩

/-- C2 witness: the demo backend reports itself inactive at state 1, and
the Active adapter surfaces exactly that. -/
theorem active_enabled_reflects_backend_witness :
    tmsDemo.torch_memory_saver_attr = Option.some msDemo ∧
    msDemo.enabled 1 = false ∧
    (TorchMemorySaverAdapter.create (ImportOutcome.success tmsDemo) true =
        (Except.ok TorchMemorySaverAdapter.real, []) ∧
      TorchMemorySaverAdapter.enabled (ImportOutcome.success tmsDemo)
        TorchMemorySaverAdapter.real 1 = Except.ok (msDemo.enabled 1)) :=
  ⟨rfl, by decide, active_enabled_reflects_backend tmsDemo msDemo rfl 1⟩

/-- C3: `create(false)` never raises and returns the no-op adapter
whatever the import outcome, and that adapter's `enabled` is always
false. -/
theorem create_false_returns_inert {σ : Type} (io : ImportOutcome σ) (s : σ) :
    TorchMemorySaverAdapter.create io false =
      (Except.ok TorchMemorySaverAdapter.noop, []) ∧
    TorchMemorySaverAdapter.enabled io TorchMemorySaverAdapter.noop s =
      Except.ok false := by
  cases io <;> exact ⟨rfl, rfl⟩

/-- C4: on every adapter produced by `create`, `check_validity` returns
normally without raising; when `enabled` is false it logs exactly one
warning that mentions the caller's name and both plausible root causes,
and when `enabled` is true it logs nothing. -/
theorem checkValidity_warns_iff_disabled {σ : Type} (io : ImportOutcome σ)
    (enable : Bool) (a : TorchMemorySaverAdapter) (lg : List String)
    (hc : TorchMemorySaverAdapter.create io enable = (Except.ok a, lg))
    (s : σ) (caller_name : String) :
    ∃ b : Bool,
      TorchMemorySaverAdapter.enabled io a s = Except.ok b ∧
      TorchMemorySaverAdapter.checkValidity io a s caller_name =
        (Except.ok (), if b then [] else [validityWarning caller_name]) ∧
      strContains caller_name (validityWarning caller_name) = true ∧
      strContains "`enable_memory_saver` is false" (validityWarning caller_name) = true ∧
      strContains "installation issues" (validityWarning caller_name) = true := by
  cases a with
  | noop =>
    refine ⟨false, rfl, rfl, validityWarning_mentions caller_name⟩
  | real =>
    cases io with
    | failure e =>
      exfalso
      cases enable <;>
        simp [TorchMemorySaverAdapter.create, importError] at hc
    | success m =>
      rcases hms : m.torch_memory_saver_attr with _ | ms
      · refine ⟨false, ?_, ?_, validityWarning_mentions caller_name⟩
        · simp [TorchMemorySaverAdapter.enabled, hms]
        · simp [TorchMemorySaverAdapter.checkValidity,
            TorchMemorySaverAdapter.enabled, hms]
      · refine ⟨ms.enabled s, ?_, ?_, validityWarning_mentions caller_name⟩
        · simp [TorchMemorySaverAdapter.enabled, hms]
        · by_cases hb : ms.enabled s = true <;>
            simp [TorchMemorySaverAdapter.checkValidity,
              TorchMemorySaverAdapter.enabled, hms, hb]

/-- C4 witness: the inert adapter produced by `create(false)` warns once,
mentioning the caller. -/
theorem checkValidity_warns_iff_disabled_witness :
    TorchMemorySaverAdapter.create ioDemo false =
      (Except.ok TorchMemorySaverAdapter.noop, []) ∧
    (∃ b : Bool,
      TorchMemorySaverAdapter.enabled ioDemo TorchMemorySaverAdapter.noop 0 =
        Except.ok b ∧
      TorchMemorySaverAdapter.checkValidity ioDemo
          TorchMemorySaverAdapter.noop 0 "pause" =
        (Except.ok (), if b then [] else [validityWarning "pause"]) ∧
      strContains "pause" (validityWarning "pause") = true ∧
      strContains "`enable_memory_saver` is false" (validityWarning "pause") = true ∧
      strContains "installation issues" (validityWarning "pause") = true) :=
  ⟨rfl, checkValidity_warns_iff_disabled ioDemo false
    TorchMemorySaverAdapter.noop [] rfl 0 "pause"⟩

/-- C5: with the backend present, every Active-adapter operation is the
corresponding backend operation applied to the same tag and state — the
tag is forwarded unchanged and the backend's result (value or error)
comes back unchanged, with nothing added by the adapter. -/
theorem active_ops_pass_through {σ : Type} (m : TorchMemorySaverModule σ)
    (ms : MemSaverObj σ) (hms : m.torch_memory_saver_attr = Option.some ms)
    (tag : String) (s : σ) :
    TorchMemorySaverAdapter.pause (ImportOutcome.success m)
        TorchMemorySaverAdapter.real tag s = ms.pause tag s ∧
    TorchMemorySaverAdapter.resume (ImportOutcome.success m)
        TorchMemorySaverAdapter.real tag s = ms.resume tag s ∧
    TorchMemorySaverAdapter.region (ImportOutcome.success m)
        TorchMemorySaverAdapter.real tag s = ms.region tag s ∧
    TorchMemorySaverAdapter.configureSubprocess (ImportOutcome.success m)
        TorchMemorySaverAdapter.real s = m.configure_subprocess s := by
  refine ⟨?_, ?_, ?_, rfl⟩ <;>
    simp [TorchMemorySaverAdapter.pause, TorchMemorySaverAdapter.resume,
      TorchMemorySaverAdapter.region, hms]

/-- C5 witness: a backend whose every operation raises a distinct error;
the Active adapter surfaces each of those errors unchanged. -/
theorem active_ops_pass_through_witness :
    tmsErrDemo.torch_memory_saver_attr = Option.some msErrDemo ∧
    (TorchMemorySaverAdapter.pause (ImportOutcome.success tmsErrDemo)
        TorchMemorySaverAdapter.real "kv_cache" 0 = msErrDemo.pause "kv_cache" 0 ∧
      TorchMemorySaverAdapter.resume (ImportOutcome.success tmsErrDemo)
        TorchMemorySaverAdapter.real "kv_cache" 0 = msErrDemo.resume "kv_cache" 0 ∧
      TorchMemorySaverAdapter.region (ImportOutcome.success tmsErrDemo)
        TorchMemorySaverAdapter.real "kv_cache" 0 = msErrDemo.region "kv_cache" 0 ∧
      TorchMemorySaverAdapter.configureSubprocess (ImportOutcome.success tmsErrDemo)
        TorchMemorySaverAdapter.real 0 = tmsErrDemo.configure_subprocess 0) :=
  ⟨rfl, active_ops_pass_through tmsErrDemo msErrDemo rfl "kv_cache" 0⟩

/-- C6: every Inert-adapter operation returns immediately without error
and leaves the state untouched, and the scoped context it hands out has
no-op enter and exit for every state and never suppresses exceptions. -/
theorem inert_ops_no_effect {σ : Type} (io : ImportOutcome σ) (tag : String)
    (s : σ) :
    TorchMemorySaverAdapter.pause io TorchMemorySaverAdapter.noop tag s =
      (Except.ok PyVal.none, s) ∧
    TorchMemorySaverAdapter.resume io TorchMemorySaverAdapter.noop tag s =
      (Except.ok PyVal.none, s) ∧
    TorchMemorySaverAdapter.region io TorchMemorySaverAdapter.noop tag s =
      (Except.ok (noopCtx σ), s) ∧
    TorchMemorySaverAdapter.configureSubprocess io TorchMemorySaverAdapter.noop s =
      (Except.ok (noopCtx σ), s) ∧
    (∀ s2 : σ, (noopCtx σ).enter s2 = (Except.ok PyVal.none, s2)) ∧
    (∀ (e : Option PyErr) (s2 : σ), (noopCtx σ).exit e s2 = (s2, false)) :=
  ⟨rfl, rfl, rfl, rfl, fun _ => rfl, fun _ _ => rfl⟩

/-- C7: once a scope obtained from `region(tag)` has been entered, its
exit step runs exactly once on every control-flow exit of the body —
normal completion or an error raised inside the scope — for both adapter
variants. -/
theorem region_scope_exit_exactly_once {σ : Type} (io : ImportOutcome σ)
    (a : TorchMemorySaverAdapter) (tag : String) (s s1 : σ) (cm : CtxMgr σ)
    (hr : TorchMemorySaverAdapter.region io a tag s = (Except.ok cm, s1))
    (body : σ → Except PyErr PyVal × σ) (s2 : σ) (v : PyVal) (s3 : σ)
    (hen : cm.enter s2 = (Except.ok v, s3)) :
    (runWithCount cm body s2).2.2 = 1 := by
  unfold runWithCount
  rw [hen]
  rcases hb : body s3 with ⟨r, s4⟩
  cases r with
  | ok v2 =>
    rcases hx : cm.exit Option.none s4 with ⟨s5, b⟩
    simp [hb, hx]
  | error e =>
    rcases hx : cm.exit (Option.some e) s4 with ⟨s5, b⟩
    cases b <;> simp [hb, hx]

/-- C7 witness: the inert `region` scope, with a body that raises, still
runs its exit step exactly once. -/
theorem region_scope_exit_exactly_once_witness :
    TorchMemorySaverAdapter.region ioDemo TorchMemorySaverAdapter.noop "kv" 0 =
      (Except.ok (noopCtx Nat), 0) ∧
    (noopCtx Nat).enter 5 = (Except.ok PyVal.none, 5) ∧
    (runWithCount (noopCtx Nat)
        (fun s => (Except.error (PyErr.userErr 3), s + 1)) 5).2.2 = 1 :=
  ⟨rfl, rfl, region_scope_exit_exactly_once ioDemo TorchMemorySaverAdapter.noop
    "kv" 0 0 (noopCtx Nat) rfl
    (fun s => (Except.error (PyErr.userErr 3), s + 1)) 5 PyVal.none 5 rfl⟩

/-- Each interface call leaves the adapter component of the process state
unchanged. -/
theorem stepOp_adapter {σ : Type} (io : ImportOutcome σ) (p : ProcState σ)
    (op : AdapterOp) : (stepOp io p op).adapter = p.adapter := by
  cases op <;> rfl

/-- Running any sequence of interface calls leaves the adapter component
unchanged. -/
theorem foldl_stepOp_adapter {σ : Type} (io : ImportOutcome σ)
    (ops : List AdapterOp) (p : ProcState σ) :
    (ops.foldl (stepOp io) p).adapter = p.adapter := by
  induction ops generalizing p with
  | nil => rfl
  | cons op rest ih =>
    rw [List.foldl_cons, ih, stepOp_adapter]

/-- C8: the variant a process holds is fixed by the single `create` call
at construction — `real` exactly when `enable` is true — and no sequence
of later interface calls can change it. -/
theorem adapter_variant_immutable {σ : Type} (io : ImportOutcome σ)
    (enable : Bool) (ops : List AdapterOp) (s : σ) (p : ProcState σ)
    (h : processRun io enable ops s = Except.ok p) :
    p.adapter =
      (if enable then TorchMemorySaverAdapter.real
        else TorchMemorySaverAdapter.noop) := by
  unfold processRun at h
  rcases hc : TorchMemorySaverAdapter.create io enable with ⟨r, lg⟩
  rcases r with e | a
  · rw [hc] at h
    exact absurd h (by simp)
  · rw [hc] at h
    simp only [Except.ok.injEq] at h
    subst h
    have ha : a =
        (if enable then TorchMemorySaverAdapter.real
          else TorchMemorySaverAdapter.noop) := by
      cases io <;> cases enable <;>
        simp [TorchMemorySaverAdapter.create, importError] at hc <;>
        simp [hc.1.symm]
    rw [foldl_stepOp_adapter, ha]

/-- C8 witness: a process that enables memory saving, then pauses a tag,
still holds the real adapter. -/
theorem adapter_variant_immutable_witness :
    processRun ioDemo true [AdapterOp.pauseCall "kv_cache"] 0 =
      Except.ok ⟨TorchMemorySaverAdapter.real, 1, []⟩ ∧
    (ProcState.mk TorchMemorySaverAdapter.real 1 ([] : List String)).adapter =
      (if true then TorchMemorySaverAdapter.real
        else TorchMemorySaverAdapter.noop) :=
  ⟨rfl, adapter_variant_immutable ioDemo true [AdapterOp.pauseCall "kv_cache"]
    0 ⟨TorchMemorySaverAdapter.real, 1, []⟩ rfl⟩

/-- C9: for any tag (in particular one never paused), `resume(tag)` is
accepted by both variants: the inert adapter returns immediately with no
effect and no error, and the active adapter is exactly the backend's
`resume` with no check or error added by the adapter itself. -/
theorem resume_never_paused_accepted {σ : Type} (io : ImportOutcome σ)
    (tag : String) (s : σ) (m : TorchMemorySaverModule σ) (ms : MemSaverObj σ)
    (hms : m.torch_memory_saver_attr = Option.some ms) :
    TorchMemorySaverAdapter.resume io TorchMemorySaverAdapter.noop tag s =
      (Except.ok PyVal.none, s) ∧
    TorchMemorySaverAdapter.resume (ImportOutcome.success m)
        TorchMemorySaverAdapter.real tag s = ms.resume tag s := by
  exact ⟨rfl, by simp [TorchMemorySaverAdapter.resume, hms]⟩

/-- C9 witness: resuming a fresh tag that was never paused. -/
theorem resume_never_paused_accepted_witness :
    tmsDemo.torch_memory_saver_attr = Option.some msDemo ∧
    (TorchMemorySaverAdapter.resume ioDemo TorchMemorySaverAdapter.noop
        "never_paused" 0 = (Except.ok PyVal.none, 0) ∧
      TorchMemorySaverAdapter.resume (ImportOutcome.success tmsDemo)
        TorchMemorySaverAdapter.real "never_paused" 0 =
          msDemo.resume "never_paused" 0) :=
  ⟨rfl, resume_never_paused_accepted ioDemo "never_paused" 0 tmsDemo msDemo rfl⟩

/-- C10: when argument preparation succeeds, the launcher calls
`kill_process_tree(pid, include_parent=False)` exactly once on every exit
path of `launch_server` — it tears the tree down on the state
`launch_server` left behind, and the outcome of `launch_server` (normal
value or exception) is propagated unchanged afterwards. -/
theorem launcher_kills_tree_on_all_paths {σ α : Type}
    (prepare_server_args : List String → Except PyErr α)
    (launch_server : α → σ → Except PyErr PyVal × σ)
    (kill_process_tree : Nat → Bool → σ → σ)
    (pid : Nat) (argv : List String) (s : σ) (server_args : α)
    (hp : prepare_server_args argv = Except.ok server_args) :
    launchServerMain prepare_server_args launch_server kill_process_tree
        pid argv s =
      ((launch_server server_args s).1,
        kill_process_tree pid false (launch_server server_args s).2,
        [(pid, false)]) := by
  unfold launchServerMain
  rw [hp]

/-- C10 witness: a launcher whose server loop raises; the teardown still
runs once with `include_parent = false`, and the error then propagates. -/
theorem launcher_kills_tree_on_all_paths_witness :
    prepareDemo ["--port", "3000"] = Except.ok "--port 3000" ∧
    launchServerMain prepareDemo launchDemo killDemo 42 ["--port", "3000"] 0 =
      ((launchDemo "--port 3000" 0).1,
        killDemo 42 false (launchDemo "--port 3000" 0).2,
        [(42, false)]) :=
  ⟨rfl, launcher_kills_tree_on_all_paths prepareDemo launchDemo killDemo
    42 ["--port", "3000"] 0 "--port 3000" rfl⟩
